import Mathlib

set_option autoImplicit false

/-!
Verification of the behave JUnit reporter (`behave/reporter/junit.py`).

Python strings are modelled as `List Char`, floating-point durations as exact
rationals, and XML element trees as an inductive type.  The reporter functions
(`make_feature_filename`, `_process_scenario`, `_process_scenario_outline`,
`feature`) are transliterated below; file input/output is out of scope, so the
`feature` method is modelled up to the construction of the `testsuite` element
(`build_suite`).  The `assert step, "OOPS: No failed step found"` statement is
modelled by returning `none` (a Python `AssertionError` aborts processing).
-/

namespace Behave

/-- Python strings modelled as lists of characters. -/
abbrev Str := List Char

/-- The ESC character that introduces an ANSI terminal escape sequence. -/
def escChar : Char := Char.ofNat 27

/-- Modelled from the spec: `behave.formatter.ansi_escapes.strip_escapes` is not
part of the given sources; section 7 of the spec requires that ANSI terminal
escape sequences be stripped from captured text before insertion into CDATA.
State machine: after seeing ESC, characters are dropped up to and including the
sequence's final alphabetic character; all other characters pass through. -/
def stripEscapesAux : Bool → Str → Str
  | _, [] => []
  | false, c :: rest =>
      if c = escChar then stripEscapesAux true rest
      else c :: stripEscapesAux false rest
  | true, c :: rest =>
      if c.isAlpha then stripEscapesAux false rest
      else stripEscapesAux true rest

/-- Modelled from the spec: strip ANSI escape sequences from text. -/
def strip_escapes (text : Str) : Str := stripEscapesAux false text

/-- A Python exception value attached to a failed step: either an
`AssertionError` (a failed expectation) or any other exception class,
carrying its class name. -/
inductive PyExc where
  | assertionError (msg : Str)
  | otherError (className : Str) (msg : Str)
deriving DecidableEq, Repr

/-- The test `isinstance(exc, (AssertionError, type(None)))` for an optional exception. -/
def excIsAssertionOrNone : Option PyExc → Bool
  | none => true
  | some (.assertionError _) => true
  | some (.otherError _ _) => false

/-- The class name `exc.__class__.__name__`; for Python `None` this is the string `NoneType`. -/
def excClassName : Option PyExc → Str
  | none => "NoneType".data
  | some (.assertionError _) => "AssertionError".data
  | some (.otherError cn _) => cn

/-- The string form `str(exc)`; for Python `None` this is the string `None`. -/
def excStr : Option PyExc → Str
  | none => "None".data
  | some (.assertionError m) => m
  | some (.otherError _ m) => m

/-- A step of a scenario, as consumed by the reporter. -/
structure Step where
  keyword : Str
  name : Str
  status : Str
  exception : Option PyExc
  error_message : Str
  location : Str
deriving DecidableEq, Repr

/-- A concrete scenario, as consumed by the reporter.  Iterating a behave
scenario yields its steps; captured stdout/stderr are empty when absent. -/
structure Scenario where
  name : Str
  status : Str
  duration : ℚ
  steps : List Step
  stdout : Str
  stderr : Str
deriving DecidableEq, Repr

/-- A feature element: either a plain scenario or a scenario outline, the
latter iterated as its generated concrete scenarios. -/
inductive FeatureElement where
  | scenario (s : Scenario)
  | outline (scenarios : List Scenario)
deriving DecidableEq, Repr

/-- A feature, as consumed by the reporter. -/
structure Feature where
  name : Str
  filename : Str
  duration : ℚ
  elements : List FeatureElement
deriving DecidableEq, Repr

/-- An XML element: tag, attributes in insertion order, text content and
child elements (`xml.etree.ElementTree.Element`). -/
inductive Xml where
  | elem (tag : Str) (attrs : List (Str × Str)) (text : Str) (children : List Xml)

/-- The tag of an element. -/
def Xml.tag : Xml → Str
  | .elem t _ _ _ => t

/-- The attribute list of an element. -/
def Xml.attrs : Xml → List (Str × Str)
  | .elem _ a _ _ => a

/-- The text content of an element. -/
def Xml.text : Xml → Str
  | .elem _ _ tx _ => tx

/-- The child elements of an element. -/
def Xml.children : Xml → List Xml
  | .elem _ _ _ c => c

/-- The operation `element.set(key, value)`: record an attribute (keys set once per element). -/
def Xml.setAttr : Xml → Str → Str → Xml
  | .elem t a tx c, k, v => .elem t (a ++ [(k, v)]) tx c

/-- The operation `element.append(child)`. -/
def Xml.appendChild : Xml → Xml → Xml
  | .elem t a tx c, child => .elem t a tx (c ++ [child])

/-- The operation `element.get(key)`: look up an attribute value. -/
def Xml.getAttr (e : Xml) (k : Str) : Option Str :=
  (e.attrs.find? (fun p => p.1 == k)).map Prod.snd

/-- Whether the element has a direct child with the given tag. -/
def Xml.hasChildTag (e : Xml) (t : Str) : Bool :=
  e.children.any (fun c => c.tag == t)

/-- The fake tag marking designated CDATA nodes. -/
def cdataTag : Str := "![CDATA[".data

/-- The `CDATA` factory: an element with the fake CDATA tag whose text is the
given text with ANSI escapes stripped. -/
def CDATA (text : Str) : Xml :=
  .elem cdataTag [] (strip_escapes text) []

/-- Modelled from the spec: the standard library XML serializer entity-escapes
text content. -/
def escapeTextChar (c : Char) : Str :=
  if c = '&' then "&amp;".data
  else if c = '<' then "&lt;".data
  else if c = '>' then "&gt;".data
  else [c]

/-- Standard text-content escaping. -/
def escape_text (s : Str) : Str := s.flatMap escapeTextChar

/-- Modelled from the spec: the standard library XML serializer entity-escapes
attribute values (also the double quote and newline). -/
def escapeAttrChar (c : Char) : Str :=
  if c = '&' then "&amp;".data
  else if c = '<' then "&lt;".data
  else if c = '>' then "&gt;".data
  else if c = Char.ofNat 34 then "&quot;".data
  else if c = Char.ofNat 10 then "&#10;".data
  else [c]

/-- Standard attribute-value escaping. -/
def escape_attrib (s : Str) : Str := s.flatMap escapeAttrChar

/-- Render an attribute list. -/
def serializeAttrs (attrs : List (Str × Str)) : Str :=
  attrs.flatMap (fun p => " ".data ++ p.1 ++ "=\x22".data ++ escape_attrib p.2 ++ "\x22".data)

mutual
/-- The patched `_serialize_xml`: a node with the fake CDATA tag is emitted as
a verbatim CDATA block; every other node with standard escaped serialization. -/
def serialize_xml : Xml → Str
  | .elem tag attrs text children =>
      if tag = cdataTag then
        "\n<".data ++ tag ++ text ++ "]]>\n".data
      else
        "<".data ++ tag ++ serializeAttrs attrs ++ ">".data ++ escape_text text ++
          serialize_list children ++ "</".data ++ tag ++ ">".data

/-- Serialize a list of sibling nodes depth-first, in order. -/
def serialize_list : List Xml → Str
  | [] => []
  | x :: xs => serialize_xml x ++ serialize_list xs
end

/-- Decimal digits of a natural number. -/
def natToDigits (n : Nat) : Str := Nat.toDigits 10 n

/-- Modelled from the spec: durations are floating-point seconds, modelled as
exact rationals; `round(x, 6)` rounds to six decimal digits (ties, which exact
binary floats cannot produce at six decimals, are rounded up).  Computed on the
numerator and denominator by integer floor division, this is
`⌊q * 1000000 + 1 / 2⌋` (see `round6_eq`). -/
def round6 (q : ℚ) : ℤ := Int.fdiv (q.num * 2000000 + q.den) (2 * q.den)

/-- Remove trailing zero digits of a fractional part. -/
def trimTrailingZeros (s : Str) : Str := (s.reverse.dropWhile (· == '0')).reverse

/-- Modelled from the spec: `str(round(duration, 6))`, Python's decimal
rendering of the rounded value (fractional digits without trailing zeros;
a whole number renders with a single trailing zero digit). -/
def renderRound6 (q : ℚ) : Str :=
  let r := round6 q
  let sign : Str := if r < 0 then "-".data else []
  let n := r.natAbs
  let ip := n / 1000000
  let fp := n % 1000000
  if fp = 0 then sign ++ natToDigits ip ++ ".0".data
  else
    let ds := natToDigits fp
    sign ++ natToDigits ip ++ ".".data ++
      trimTrailingZeros (List.replicate (6 - ds.length) '0' ++ ds)

/-- Report data accumulated for one feature (`FeatureReportData`). -/
structure FeatureReportData where
  feature : Feature
  filename : Str
  classname : Str
  testcases : List Xml
  counts_tests : Nat
  counts_errors : Nat
  counts_failed : Nat
  counts_skipped : Nat

/-- The `FeatureReportData` constructor with `classname=None`: the classname is
derived from the filename by replacing slashes with dots. -/
def FeatureReportData.mk0 (feature : Feature) (filename : Str) : FeatureReportData :=
  { feature := feature
    filename := filename
    classname := filename.map (fun c => if c = '/' then '.' else c)
    testcases := []
    counts_tests := 0
    counts_errors := 0
    counts_failed := 0
    counts_skipped := 0 }

/-- Replace every occurrence of a character. -/
def replaceChar (a b : Char) (s : Str) : Str :=
  s.map (fun c => if c = a then b else c)

/-- The `for path in self.config.paths` loop with `break`: the first configured
search-root path that is a prefix of the feature filename. -/
def findMatchingRoot : List Str → Str → Option Str
  | [], _ => none
  | p :: rest, fname =>
      if p.isPrefixOf fname then some p else findMatchingRoot rest fname

/-- The base name `os.path.split(fname)[1]`: the part after the last slash. -/
def basename (fname : Str) : Str :=
  (fname.reverse.takeWhile (· != '/')).reverse

/-- The head of `fname.rsplit(".", 1)`: everything before the last dot, when a dot is
present; otherwise the whole string. -/
def stripExt (s : Str) : Str :=
  if '.' ∈ s then ((s.reverse.dropWhile (· != '.')).reverse).dropLast else s

/-- The method `JUnitReporter.make_feature_filename`. -/
def make_feature_filename (paths : List Str) (feature_filename : Str) : Str :=
  let filename :=
    match findMatchingRoot paths feature_filename with
    | some p => feature_filename.drop (p.length + 1)
    | none => basename feature_filename
  replaceChar '/' '.' (replaceChar '\\' '/' (stripExt filename))

/-- The method `JUnitReporter.select_step_with_status`: first step with the given status. -/
def select_step_with_status (status : Str) (steps : List Step) : Option Step :=
  steps.find? (fun step => step.status == status)

/-- Python format `%12s`: right-justify in a field of the given width. -/
def rjust (width : Nat) (s : Str) : Str :=
  List.replicate (width - s.length) ' ' ++ s

/-- The method `JUnitReporter.describe_scenario`. -/
def describe_scenario (scenario : Scenario) : Str :=
  "Steps:\n".data ++
    scenario.steps.flatMap (fun step =>
      rjust 12 step.keyword ++ " ".data ++ step.name ++ " ... ".data ++
        step.status ++ "\n".data)

/-- The classification outcome of one scenario: the finished testcase element
and the increments applied to the errors/failed/skipped counters. -/
structure ScenarioResult where
  case : Xml
  d_errors : Nat
  d_failed : Nat
  d_skipped : Nat

/-- The text of the `system-out` CDATA block: the scenario description,
followed by the captured stdout when present. -/
def systemOutText (scenario : Scenario) : Str :=
  if scenario.stdout ≠ [] then
    describe_scenario scenario ++ "\nCaptured stdout:\n".data ++ scenario.stdout ++ "\n".data
  else describe_scenario scenario

/-- The `system-out` child element of a testcase. -/
def systemOutOf (scenario : Scenario) : Xml :=
  (Xml.elem "system-out".data [] [] []).appendChild (CDATA (systemOutText scenario))

/-- The `system-err` child element of a testcase (attached only when stderr
was captured). -/
def systemErrOf (scenario : Scenario) : Xml :=
  (Xml.elem "system-err".data [] [] []).appendChild
    (CDATA ("\nCaptured stderr:\n".data ++ scenario.stderr ++ "\n".data))

/-- The tail of `_process_scenario` shared by all branches: attach the
`system-out` child and, when stderr was captured, the `system-err` child. -/
def finishCase (case : Xml) (scenario : Scenario)
    (d_errors d_failed d_skipped : Nat) : ScenarioResult :=
  let case := case.appendChild (systemOutOf scenario)
  let case :=
    if scenario.stderr ≠ [] then case.appendChild (systemErrOf scenario) else case
  { case := case, d_errors := d_errors, d_failed := d_failed, d_skipped := d_skipped }

/-- The testcase element with its four attributes, as set at the top of
`_process_scenario`. -/
def baseTestcase (classname : Str) (feature : Feature) (scenario : Scenario) : Xml :=
  ((((Xml.elem "testcase".data [] [] []).setAttr "classname".data
      (classname ++ ".".data ++
        (if feature.name ≠ [] then feature.name else feature.filename))).setAttr
    "name".data scenario.name).setAttr
    "status".data scenario.status).setAttr
    "time".data (renderRound6 scenario.duration)

/-- The CDATA text of the failure/error child: step name, step location and
the step's recorded (untruncated) error message. -/
def failedStepText (step : Step) : Str :=
  "Step: ".data ++ step.name ++ ".\nLocation: ".data ++ step.location ++ "\n".data ++
    step.error_message

/-- The string `str(step.exception)` truncated to 80 characters with a trailing ellipsis
when longer. -/
def truncatedMessage (step : Step) : Str :=
  let message := excStr step.exception
  if message.length > 80 then message.take 80 ++ "...".data else message

/-- The `failure`/`error` child element built for the failing step of a failed
scenario. -/
def failureChild (step : Step) : Xml :=
  let element_name :=
    if excIsAssertionOrNone step.exception then "failure".data else "error".data
  (((Xml.elem element_name [] [] []).setAttr
      "type".data (excClassName step.exception)).setAttr
      "message".data (truncatedMessage step)).appendChild (CDATA (failedStepText step))

/-- The `failure` child element built for an undefined step of a
skipped/untested scenario (no CDATA body). -/
def undefinedChild (step : Step) : Xml :=
  ((Xml.elem "failure".data [] [] []).setAttr "type".data "undefined".data).setAttr
    "message".data ("Undefined Step: ".data ++ step.name)

/-- The body of `JUnitReporter._process_scenario`: build the testcase element
for one scenario and determine the counter increments.  `none` models the
`AssertionError` raised when a failed scenario has no failed step. -/
def process_scenario_core (classname : Str) (feature : Feature)
    (scenario : Scenario) : Option ScenarioResult :=
  let case := baseTestcase classname feature scenario
  if scenario.status = "failed".data then
    match select_step_with_status "failed".data scenario.steps with
    | none => none
    | some step =>
        let assertionLike := excIsAssertionOrNone step.exception
        some (finishCase (case.appendChild (failureChild step)) scenario
          (if assertionLike then 0 else 1) (if assertionLike then 1 else 0) 0)
  else if scenario.status = "skipped".data ∨ scenario.status = "untested".data then
    match select_step_with_status "undefined".data scenario.steps with
    | some step => some (finishCase (case.appendChild (undefinedChild step)) scenario 0 1 1)
    | none =>
        some (finishCase (case.appendChild (Xml.elem "skipped".data [] [] [])) scenario 0 0 1)
  else
    some (finishCase case scenario 0 0 0)

/-- The method `JUnitReporter._process_scenario`: increment `tests`, build the testcase,
apply the classification increments and append the testcase to the report. -/
def process_scenario (scenario : Scenario) (report : FeatureReportData) :
    Option FeatureReportData :=
  match process_scenario_core report.classname report.feature scenario with
  | none => none
  | some res =>
      some { report with
        counts_tests := report.counts_tests + 1
        counts_errors := report.counts_errors + res.d_errors
        counts_failed := report.counts_failed + res.d_failed
        counts_skipped := report.counts_skipped + res.d_skipped
        testcases := report.testcases ++ [res.case] }

/-- The method `JUnitReporter._process_scenario_outline`: process each generated scenario
of the outline in generation order. -/
def process_scenario_outline (scenarios : List Scenario)
    (report : FeatureReportData) : Option FeatureReportData :=
  match scenarios with
  | [] => some report
  | s :: rest =>
      match process_scenario s report with
      | none => none
      | some r => process_scenario_outline rest r

/-- The scenario loop of `JUnitReporter.feature`. -/
def process_feature_elements (elements : List FeatureElement)
    (report : FeatureReportData) : Option FeatureReportData :=
  match elements with
  | [] => some report
  | .scenario s :: rest =>
      match process_scenario s report with
      | none => none
      | some r => process_feature_elements rest r
  | .outline ss :: rest =>
      match process_scenario_outline ss report with
      | none => none
      | some r => process_feature_elements rest r

/-- The scenarios one feature element yields for reporting: a plain scenario
itself, an outline its generated scenarios. -/
def expandElement : FeatureElement → List Scenario
  | .scenario s => [s]
  | .outline ss => ss

/-- The scenarios a feature yields for reporting, outlines expanded in
generation order. -/
def expandedScenarios (f : Feature) : List Scenario :=
  f.elements.flatMap expandElement

/-- The method `JUnitReporter.feature` up to (not including) file output: build the report
data and the `testsuite` element. -/
def build_suite (paths : List Str) (f : Feature) :
    Option (FeatureReportData × Xml) :=
  let filename := make_feature_filename paths f.filename
  let classname := filename
  let report := FeatureReportData.mk0 f filename
  let suite := Xml.elem "testsuite".data [] [] []
  let suite := suite.setAttr "name".data
    (classname ++ ".".data ++ (if f.name ≠ [] then f.name else f.filename))
  match process_feature_elements f.elements report with
  | none => none
  | some report =>
      let suite := report.testcases.foldl Xml.appendChild suite
      let suite := suite.setAttr "tests".data (natToDigits report.counts_tests)
      let suite := suite.setAttr "errors".data (natToDigits report.counts_errors)
      let suite := suite.setAttr "failures".data (natToDigits report.counts_failed)
      let suite := suite.setAttr "skipped".data (natToDigits report.counts_skipped)
      let suite := suite.setAttr "time".data (renderRound6 f.duration)
      some (report, suite)

/-- A sample passing step. -/
def stepPassed : Step :=
  { keyword := "Given".data, name := "setup".data, status := "passed".data,
    exception := none, error_message := [], location := "features/x.feature:2".data }

/-- A sample step failing with an assertion-style exception. -/
def stepFailedAssert : Step :=
  { keyword := "When".data, name := "it breaks".data, status := "failed".data,
    exception := some (.assertionError "boom".data),
    error_message := "boom trace".data, location := "features/x.feature:3".data }

/-- A sample step failing with a non-assertion exception and a long message. -/
def stepFailedRuntime : Step :=
  { keyword := "When".data, name := "it blows up".data, status := "failed".data,
    exception := some (.otherError "ValueError".data (List.replicate 100 'x')),
    error_message := "trace".data, location := "features/x.feature:4".data }

/-- A sample failed step with no exception object attached. -/
def stepFailedNone : Step :=
  { keyword := "When".data, name := "it dies".data, status := "failed".data,
    exception := none, error_message := "dead".data,
    location := "features/x.feature:5".data }

/-- A sample undefined step. -/
def stepUndefined : Step :=
  { keyword := "When".data, name := "mystery".data, status := "undefined".data,
    exception := none, error_message := [], location := "features/x.feature:6".data }

/-- A sample failed scenario whose failing step raised an assertion. -/
def scnFailedAssert : Scenario :=
  { name := "S1".data, status := "failed".data, duration := mkRat 1 2,
    steps := [stepPassed, stepFailedAssert], stdout := "out<&\x22".data, stderr := [] }

/-- A sample failed scenario whose failing step raised a runtime error. -/
def scnFailedRuntime : Scenario :=
  { name := "S2".data, status := "failed".data, duration := 0,
    steps := [stepFailedRuntime], stdout := [], stderr := [] }

/-- A sample failed scenario whose failing step has no exception object. -/
def scnFailedNone : Scenario :=
  { name := "S3".data, status := "failed".data, duration := 0,
    steps := [stepFailedNone], stdout := [], stderr := [] }

/-- A sample skipped scenario containing an undefined step. -/
def scnSkippedUndefined : Scenario :=
  { name := "S4".data, status := "skipped".data, duration := 0,
    steps := [stepPassed, stepUndefined], stdout := [], stderr := [] }

/-- A sample passed scenario. -/
def scnPassed : Scenario :=
  { name := "Login works".data, status := "passed".data, duration := mkRat 123456 1000000,
    steps := [stepPassed], stdout := [], stderr := [] }

/-- A sample feature combining the sample scenarios with an outline. -/
def sampleFeature : Feature :=
  { name := "F".data, filename := "features/x.feature".data, duration := 1,
    elements := [.scenario scnPassed, .outline [scnFailedAssert, scnSkippedUndefined],
      .scenario scnFailedNone] }

/-- The fresh report for the sample feature. -/
def sampleReport : FeatureReportData :=
  FeatureReportData.mk0 sampleFeature
    (make_feature_filename ["features".data] sampleFeature.filename)

/-- The report after processing the sample failed-assertion scenario. -/
def reportAfterFailedAssert : FeatureReportData :=
  (process_scenario scnFailedAssert sampleReport).getD sampleReport

/-- The report after processing the sample failed-runtime scenario. -/
def reportAfterFailedRuntime : FeatureReportData :=
  (process_scenario scnFailedRuntime sampleReport).getD sampleReport

/-- The report after processing the sample no-exception failed scenario. -/
def reportAfterFailedNone : FeatureReportData :=
  (process_scenario scnFailedNone sampleReport).getD sampleReport

/-- The report after processing the sample skipped scenario. -/
def reportAfterSkipped : FeatureReportData :=
  (process_scenario scnSkippedUndefined sampleReport).getD sampleReport

/-- The report after processing the sample passed scenario. -/
def reportAfterPassed : FeatureReportData :=
  (process_scenario scnPassed sampleReport).getD sampleReport

/-- The report and testsuite built for the whole sample feature. -/
def sampleBuild : FeatureReportData × Xml :=
  (build_suite ["features".data] sampleFeature).getD
    (sampleReport, Xml.elem [] [] [] [])

@[simp] theorem Xml.tag_elem (t : Str) (a : List (Str × Str)) (tx : Str) (c : List Xml) :
    (Xml.elem t a tx c).tag = t := rfl

@[simp] theorem Xml.attrs_elem (t : Str) (a : List (Str × Str)) (tx : Str) (c : List Xml) :
    (Xml.elem t a tx c).attrs = a := rfl

@[simp] theorem Xml.text_elem (t : Str) (a : List (Str × Str)) (tx : Str) (c : List Xml) :
    (Xml.elem t a tx c).text = tx := rfl

@[simp] theorem Xml.children_elem (t : Str) (a : List (Str × Str)) (tx : Str) (c : List Xml) :
    (Xml.elem t a tx c).children = c := rfl

@[simp] theorem Xml.tag_setAttr (e : Xml) (k v : Str) : (e.setAttr k v).tag = e.tag := by
  cases e; rfl

@[simp] theorem Xml.attrs_setAttr (e : Xml) (k v : Str) :
    (e.setAttr k v).attrs = e.attrs ++ [(k, v)] := by
  cases e; rfl

@[simp] theorem Xml.text_setAttr (e : Xml) (k v : Str) : (e.setAttr k v).text = e.text := by
  cases e; rfl

@[simp] theorem Xml.children_setAttr (e : Xml) (k v : Str) :
    (e.setAttr k v).children = e.children := by
  cases e; rfl

@[simp] theorem Xml.tag_appendChild (e x : Xml) : (e.appendChild x).tag = e.tag := by
  cases e; rfl

@[simp] theorem Xml.attrs_appendChild (e x : Xml) : (e.appendChild x).attrs = e.attrs := by
  cases e; rfl

@[simp] theorem Xml.text_appendChild (e x : Xml) : (e.appendChild x).text = e.text := by
  cases e; rfl

@[simp] theorem Xml.children_appendChild (e x : Xml) :
    (e.appendChild x).children = e.children ++ [x] := by
  cases e; rfl

/-- Attribute lookup depends only on the attribute list. -/
theorem Xml.getAttr_congr {e : Xml} {l : List (Str × Str)} (h : e.attrs = l) (k : Str) :
    e.getAttr k = (l.find? (fun p => p.1 == k)).map Prod.snd := by
  unfold Xml.getAttr; rw [h]

/-- Child-tag search depends only on the child list. -/
theorem Xml.hasChildTag_congr {e : Xml} {l : List Xml} (h : e.children = l) (t : Str) :
    e.hasChildTag t = l.any (fun c => c.tag == t) := by
  unfold Xml.hasChildTag; rw [h]

@[simp] theorem systemOutOf_tag (s : Scenario) : (systemOutOf s).tag = "system-out".data := by
  simp [systemOutOf]

@[simp] theorem systemErrOf_tag (s : Scenario) : (systemErrOf s).tag = "system-err".data := by
  simp [systemErrOf]

@[simp] theorem systemOutOf_children (s : Scenario) :
    (systemOutOf s).children = [CDATA (systemOutText s)] := by
  simp [systemOutOf]

@[simp] theorem baseTestcase_tag (cn : Str) (ft : Feature) (s : Scenario) :
    (baseTestcase cn ft s).tag = "testcase".data := by
  simp [baseTestcase]

@[simp] theorem baseTestcase_text (cn : Str) (ft : Feature) (s : Scenario) :
    (baseTestcase cn ft s).text = [] := by
  simp [baseTestcase]

@[simp] theorem baseTestcase_children (cn : Str) (ft : Feature) (s : Scenario) :
    (baseTestcase cn ft s).children = [] := by
  simp [baseTestcase]

@[simp] theorem baseTestcase_attrs (cn : Str) (ft : Feature) (s : Scenario) :
    (baseTestcase cn ft s).attrs =
      [("classname".data,
          cn ++ ".".data ++ (if ft.name ≠ [] then ft.name else ft.filename)),
       ("name".data, s.name), ("status".data, s.status),
       ("time".data, renderRound6 s.duration)] := by
  simp [baseTestcase]

@[simp] theorem failureChild_tag (step : Step) :
    (failureChild step).tag =
      (if excIsAssertionOrNone step.exception then "failure".data else "error".data) := by
  simp [failureChild]

@[simp] theorem failureChild_attrs (step : Step) :
    (failureChild step).attrs =
      [("type".data, excClassName step.exception),
       ("message".data, truncatedMessage step)] := by
  simp [failureChild]

@[simp] theorem failureChild_children (step : Step) :
    (failureChild step).children = [CDATA (failedStepText step)] := by
  simp [failureChild]

@[simp] theorem undefinedChild_tag (step : Step) :
    (undefinedChild step).tag = "failure".data := by
  simp [undefinedChild]

@[simp] theorem undefinedChild_attrs (step : Step) :
    (undefinedChild step).attrs =
      [("type".data, "undefined".data),
       ("message".data, "Undefined Step: ".data ++ step.name)] := by
  simp [undefinedChild]

@[simp] theorem undefinedChild_children (step : Step) :
    (undefinedChild step).children = [] := by
  simp [undefinedChild]

@[simp] theorem undefinedChild_text (step : Step) : (undefinedChild step).text = [] := by
  simp [undefinedChild]

@[simp] theorem finishCase_d_errors (c : Xml) (s : Scenario) (a b d : Nat) :
    (finishCase c s a b d).d_errors = a := rfl

@[simp] theorem finishCase_d_failed (c : Xml) (s : Scenario) (a b d : Nat) :
    (finishCase c s a b d).d_failed = b := rfl

@[simp] theorem finishCase_d_skipped (c : Xml) (s : Scenario) (a b d : Nat) :
    (finishCase c s a b d).d_skipped = d := rfl

theorem finishCase_tag (c : Xml) (s : Scenario) (a b d : Nat) :
    (finishCase c s a b d).case.tag = c.tag := by
  unfold finishCase; by_cases h : s.stderr ≠ [] <;> simp [h]

theorem finishCase_attrs (c : Xml) (s : Scenario) (a b d : Nat) :
    (finishCase c s a b d).case.attrs = c.attrs := by
  unfold finishCase; by_cases h : s.stderr ≠ [] <;> simp [h]

theorem finishCase_children (c : Xml) (s : Scenario) (a b d : Nat) :
    (finishCase c s a b d).case.children = c.children ++ [systemOutOf s] ∨
    (finishCase c s a b d).case.children = c.children ++ [systemOutOf s, systemErrOf s] := by
  unfold finishCase; by_cases h : s.stderr ≠ []
  · right; simp [h]
  · left; simp [h]

theorem process_scenario_eq_some {s : Scenario} {r r' : FeatureReportData}
    (h : process_scenario s r = some r') :
    ∃ res, process_scenario_core r.classname r.feature s = some res ∧
      r'.feature = r.feature ∧ r'.classname = r.classname ∧
      r'.testcases = r.testcases ++ [res.case] ∧
      r'.counts_tests = r.counts_tests + 1 ∧
      r'.counts_errors = r.counts_errors + res.d_errors ∧
      r'.counts_failed = r.counts_failed + res.d_failed ∧
      r'.counts_skipped = r.counts_skipped + res.d_skipped := by
  unfold process_scenario at h
  cases hc : process_scenario_core r.classname r.feature s with
  | none => rw [hc] at h; exact absurd h (by simp)
  | some res =>
      rw [hc] at h
      simp only [Option.some.injEq] at h
      subst h
      exact ⟨res, rfl, rfl, rfl, rfl, rfl, rfl, rfl, rfl⟩

theorem process_scenario_eq_none {s : Scenario} {r : FeatureReportData} :
    process_scenario s r = none ↔
      process_scenario_core r.classname r.feature s = none := by
  unfold process_scenario
  cases process_scenario_core r.classname r.feature s <;> simp

theorem process_scenario_core_eq_none (cn : Str) (ft : Feature) (s : Scenario) :
    process_scenario_core cn ft s = none ↔
      s.status = "failed".data ∧
      select_step_with_status "failed".data s.steps = none := by
  unfold process_scenario_core
  by_cases hf : s.status = "failed".data
  · simp only [hf, if_true, ite_true, ne_eq]
    cases hsel : select_step_with_status "failed".data s.steps <;> simp [hsel]
  · simp only [hf, if_false, ite_false]
    by_cases hs : s.status = "skipped".data ∨ s.status = "untested".data
    · simp only [hs, if_true, ite_true]
      cases hsel : select_step_with_status "undefined".data s.steps <;> simp [hf]
    · simp [hs, hf]

theorem core_failed_spec (cn : Str) (ft : Feature) (s : Scenario) (step : Step)
    (hst : s.status = "failed".data)
    (hsel : select_step_with_status "failed".data s.steps = some step) :
    ∃ res, process_scenario_core cn ft s = some res ∧
      res.d_errors = (if excIsAssertionOrNone step.exception then 0 else 1) ∧
      res.d_failed = (if excIsAssertionOrNone step.exception then 1 else 0) ∧
      res.d_skipped = 0 ∧
      res.case.tag = "testcase".data ∧
      res.case.attrs = (baseTestcase cn ft s).attrs ∧
      (res.case.children = [failureChild step, systemOutOf s] ∨
       res.case.children = [failureChild step, systemOutOf s, systemErrOf s]) := by
  refine ⟨finishCase ((baseTestcase cn ft s).appendChild (failureChild step)) s
    (if excIsAssertionOrNone step.exception then 0 else 1)
    (if excIsAssertionOrNone step.exception then 1 else 0) 0, ?_, rfl, rfl, rfl, ?_, ?_, ?_⟩
  · unfold process_scenario_core
    rw [hst]
    simp only [ite_true, if_true]
    rw [hsel]
  · rw [finishCase_tag]; simp
  · rw [finishCase_attrs]; simp
  · rcases finishCase_children ((baseTestcase cn ft s).appendChild (failureChild step)) s
      (if excIsAssertionOrNone step.exception then 0 else 1)
      (if excIsAssertionOrNone step.exception then 1 else 0) 0 with hch | hch
    · left; rw [hch]; simp
    · right; rw [hch]; simp

theorem core_skipped_undef_spec (cn : Str) (ft : Feature) (s : Scenario) (step : Step)
    (hst : s.status = "skipped".data ∨ s.status = "untested".data)
    (hsel : select_step_with_status "undefined".data s.steps = some step) :
    ∃ res, process_scenario_core cn ft s = some res ∧
      res.d_errors = 0 ∧ res.d_failed = 1 ∧ res.d_skipped = 1 ∧
      res.case.tag = "testcase".data ∧
      res.case.attrs = (baseTestcase cn ft s).attrs ∧
      (res.case.children = [undefinedChild step, systemOutOf s] ∨
       res.case.children = [undefinedChild step, systemOutOf s, systemErrOf s]) := by
  have hf : s.status ≠ "failed".data := by
    rcases hst with hst | hst <;> rw [hst] <;> decide
  refine ⟨finishCase ((baseTestcase cn ft s).appendChild (undefinedChild step)) s 0 1 1,
    ?_, rfl, rfl, rfl, ?_, ?_, ?_⟩
  · unfold process_scenario_core
    rw [if_neg hf, if_pos hst, hsel]
  · rw [finishCase_tag]; simp
  · rw [finishCase_attrs]; simp
  · rcases finishCase_children ((baseTestcase cn ft s).appendChild (undefinedChild step))
      s 0 1 1 with hch | hch
    · left; rw [hch]; simp
    · right; rw [hch]; simp

theorem core_skipped_nondef_spec (cn : Str) (ft : Feature) (s : Scenario)
    (hst : s.status = "skipped".data ∨ s.status = "untested".data)
    (hsel : select_step_with_status "undefined".data s.steps = none) :
    ∃ res, process_scenario_core cn ft s = some res ∧
      res.d_errors = 0 ∧ res.d_failed = 0 ∧ res.d_skipped = 1 ∧
      res.case.tag = "testcase".data ∧
      res.case.attrs = (baseTestcase cn ft s).attrs ∧
      (res.case.children = [Xml.elem "skipped".data [] [] [], systemOutOf s] ∨
       res.case.children = [Xml.elem "skipped".data [] [] [], systemOutOf s, systemErrOf s]) := by
  have hf : s.status ≠ "failed".data := by
    rcases hst with hst | hst <;> rw [hst] <;> decide
  refine ⟨finishCase ((baseTestcase cn ft s).appendChild (Xml.elem "skipped".data [] [] []))
    s 0 0 1, ?_, rfl, rfl, rfl, ?_, ?_, ?_⟩
  · unfold process_scenario_core
    rw [if_neg hf, if_pos hst, hsel]
  · rw [finishCase_tag]; simp
  · rw [finishCase_attrs]; simp
  · rcases finishCase_children
      ((baseTestcase cn ft s).appendChild (Xml.elem "skipped".data [] [] []))
      s 0 0 1 with hch | hch
    · left; rw [hch]; simp
    · right; rw [hch]; simp

theorem core_other_spec (cn : Str) (ft : Feature) (s : Scenario)
    (h1 : s.status ≠ "failed".data)
    (h2 : ¬(s.status = "skipped".data ∨ s.status = "untested".data)) :
    ∃ res, process_scenario_core cn ft s = some res ∧
      res.d_errors = 0 ∧ res.d_failed = 0 ∧ res.d_skipped = 0 ∧
      res.case.tag = "testcase".data ∧
      res.case.attrs = (baseTestcase cn ft s).attrs ∧
      (res.case.children = [systemOutOf s] ∨
       res.case.children = [systemOutOf s, systemErrOf s]) := by
  refine ⟨finishCase (baseTestcase cn ft s) s 0 0 0, ?_, rfl, rfl, rfl, ?_, ?_, ?_⟩
  · unfold process_scenario_core
    rw [if_neg h1, if_neg h2]
  · rw [finishCase_tag]; simp
  · rw [finishCase_attrs]
  · rcases finishCase_children (baseTestcase cn ft s) s 0 0 0 with hch | hch
    · left; rw [hch]; simp
    · right; rw [hch]; simp

theorem core_deltas_le {cn : Str} {ft : Feature} {s : Scenario} {res : ScenarioResult}
    (h : process_scenario_core cn ft s = some res) :
    res.d_errors + res.d_failed ≤ 1 ∧ res.d_skipped ≤ 1 := by
  unfold process_scenario_core at h
  by_cases hf : s.status = "failed".data
  · rw [if_pos hf] at h
    cases hsel : select_step_with_status "failed".data s.steps with
    | none => rw [hsel] at h; exact absurd h (by simp)
    | some step =>
        rw [hsel] at h
        simp only [Option.some.injEq] at h
        subst h
        by_cases he : excIsAssertionOrNone step.exception = true <;> simp [he]
  · rw [if_neg hf] at h
    by_cases hs : s.status = "skipped".data ∨ s.status = "untested".data
    · rw [if_pos hs] at h
      cases hsel : select_step_with_status "undefined".data s.steps <;> rw [hsel] at h <;>
        simp only [Option.some.injEq] at h <;> subst h <;> simp
    · rw [if_neg hs] at h
      simp only [Option.some.injEq] at h
      subst h
      simp

theorem core_systemout {cn : Str} {ft : Feature} {s : Scenario} {res : ScenarioResult}
    (h : process_scenario_core cn ft s = some res) :
    systemOutOf s ∈ res.case.children ∧ res.case.tag = "testcase".data := by
  unfold process_scenario_core at h
  by_cases hf : s.status = "failed".data
  · rw [if_pos hf] at h
    cases hsel : select_step_with_status "failed".data s.steps <;> rw [hsel] at h
    · exact absurd h (by simp)
    · simp only [Option.some.injEq] at h
      subst h
      constructor
      · rcases finishCase_children _ s _ _ _ with hch | hch <;> rw [hch] <;> simp
      · rw [finishCase_tag]; simp
  · rw [if_neg hf] at h
    by_cases hs : s.status = "skipped".data ∨ s.status = "untested".data
    · rw [if_pos hs] at h
      cases hsel : select_step_with_status "undefined".data s.steps <;> rw [hsel] at h <;>
        simp only [Option.some.injEq] at h <;> subst h <;> constructor
      · rcases finishCase_children _ s _ _ _ with hch | hch <;> rw [hch] <;> simp
      · rw [finishCase_tag]; simp
      · rcases finishCase_children _ s _ _ _ with hch | hch <;> rw [hch] <;> simp
      · rw [finishCase_tag]; simp
    · rw [if_neg hs] at h
      simp only [Option.some.injEq] at h
      subst h
      constructor
      · rcases finishCase_children _ s _ _ _ with hch | hch <;> rw [hch] <;> simp
      · rw [finishCase_tag]; simp

theorem stripEscapesAux_of_not_mem {s : Str} (h : escChar ∉ s) :
    stripEscapesAux false s = s := by
  induction s with
  | nil => rfl
  | cons c rest ih =>
      have hc : c ≠ escChar := fun hc => h (hc ▸ List.mem_cons_self c rest)
      have hrest : escChar ∉ rest := fun hr => h (List.mem_cons_of_mem c hr)
      unfold stripEscapesAux
      rw [if_neg hc, ih hrest]

/-- Stripping ANSI escapes is the identity on text without the ESC character. -/
theorem strip_escapes_of_no_esc {s : Str} (h : escChar ∉ s) : strip_escapes s = s :=
  stripEscapesAux_of_not_mem h

/-- Serializing any list of siblings contains each member's serialization. -/
theorem serialize_infix_of_mem {x : Xml} {l : List Xml} (hx : x ∈ l) :
    serialize_xml x <:+: serialize_list l := by
  induction l with
  | nil => cases hx
  | cons y ys ih =>
      rcases List.mem_cons.mp hx with h | h
      · subst h
        exact ⟨[], serialize_list ys, by rw [serialize_list]; simp⟩
      · rcases ih h with ⟨u, v, huv⟩
        exact ⟨serialize_xml y ++ u, v, by rw [serialize_list]; simp [← huv]⟩

/-- Serializing a non-CDATA element contains each child's serialization. -/
theorem serialize_infix_of_child {c e : Xml} (hc : c ∈ e.children)
    (he : e.tag ≠ cdataTag) : serialize_xml c <:+: serialize_xml e := by
  cases e with
  | elem t a tx ch =>
      simp only [Xml.tag_elem] at he
      simp only [Xml.children_elem] at hc
      rcases serialize_infix_of_mem hc with ⟨u, v, huv⟩
      refine ⟨"<".data ++ t ++ serializeAttrs a ++ ">".data ++ escape_text tx ++ u,
        v ++ "</".data ++ t ++ ">".data, ?_⟩
      rw [serialize_xml, if_neg he]
      simp [← huv]

theorem findMatchingRoot_eq_find? (paths : List Str) (fname : Str) :
    findMatchingRoot paths fname = paths.find? (fun p => p.isPrefixOf fname) := by
  induction paths with
  | nil => rfl
  | cons p rest ih =>
      unfold findMatchingRoot
      by_cases hp : p.isPrefixOf fname <;> simp [List.find?_cons, hp, ih]

/-- Pointwise relation of lists respects appending on both sides. -/
theorem forall2_append {α β : Type} {R : α → β → Prop} :
    ∀ {l₁ u₁ : List α} {l₂ u₂ : List β}, List.Forall₂ R l₁ l₂ → List.Forall₂ R u₁ u₂ →
      List.Forall₂ R (l₁ ++ u₁) (l₂ ++ u₂) := by
  intro l₁ u₁ l₂ u₂ h₁ h₂
  induction h₁ with
  | nil => simpa using h₂
  | cons hab _ ih => exact List.Forall₂.cons hab ih

theorem process_scenario_outline_spec {ss : List Scenario} {r r' : FeatureReportData}
    (h : process_scenario_outline ss r = some r') :
    r'.feature = r.feature ∧ r'.classname = r.classname ∧
    ∃ cs, r'.testcases = r.testcases ++ cs ∧
      r'.counts_tests = r.counts_tests + cs.length ∧
      List.Forall₂
        (fun sc c => ∃ res, process_scenario_core r.classname r.feature sc = some res ∧
          c = res.case) ss cs := by
  induction ss generalizing r with
  | nil =>
      unfold process_scenario_outline at h
      simp only [Option.some.injEq] at h
      subst h
      exact ⟨rfl, rfl, [], by simp, by simp, List.Forall₂.nil⟩
  | cons sc rest ih =>
      unfold process_scenario_outline at h
      cases hp : process_scenario sc r with
      | none => rw [hp] at h; exact absurd h (by simp)
      | some r1 =>
          rw [hp] at h
          obtain ⟨res, hc, hfeat, hcls, htc, hT, _, _, _⟩ := process_scenario_eq_some hp
          obtain ⟨hf2, hc2, cs, htc2, hT2, hall⟩ := ih h
          rw [hcls] at hc2
          rw [hfeat] at hf2
          refine ⟨hf2, hc2, res.case :: cs, ?_, ?_, ?_⟩
          · rw [htc2, htc]; simp
          · rw [hT2, hT, List.length_cons]; omega
          · rw [hcls, hfeat] at hall
            exact List.Forall₂.cons ⟨res, hc, rfl⟩ hall

theorem process_feature_elements_spec {es : List FeatureElement}
    {r r' : FeatureReportData} (h : process_feature_elements es r = some r') :
    r'.feature = r.feature ∧ r'.classname = r.classname ∧
    ∃ cs, r'.testcases = r.testcases ++ cs ∧
      r'.counts_tests = r.counts_tests + cs.length ∧
      List.Forall₂
        (fun sc c => ∃ res, process_scenario_core r.classname r.feature sc = some res ∧
          c = res.case) (es.flatMap expandElement) cs := by
  induction es generalizing r with
  | nil =>
      unfold process_feature_elements at h
      simp only [Option.some.injEq] at h
      subst h
      exact ⟨rfl, rfl, [], by simp, by simp, by simp⟩
  | cons e rest ih =>
      cases e with
      | scenario sc =>
          unfold process_feature_elements at h
          cases hp : process_scenario sc r with
          | none => rw [hp] at h; exact absurd h (by simp)
          | some r1 =>
              rw [hp] at h
              obtain ⟨res, hc, hfeat, hcls, htc, hT, _, _, _⟩ := process_scenario_eq_some hp
              obtain ⟨hf2, hc2, cs, htc2, hT2, hall⟩ := ih h
              rw [hcls] at hc2
              rw [hfeat] at hf2
              refine ⟨hf2, hc2, res.case :: cs, ?_, ?_, ?_⟩
              · rw [htc2, htc]; simp
              · rw [hT2, hT, List.length_cons]; omega
              · have hall' : List.Forall₂
                    (fun sc c => ∃ res,
                      process_scenario_core r.classname r.feature sc = some res ∧
                        c = res.case) (rest.flatMap expandElement) cs :=
                  hall.imp (fun a b hx => by rw [hcls, hfeat] at hx; exact hx)
                simp only [List.flatMap_cons, expandElement, List.singleton_append]
                exact List.Forall₂.cons ⟨res, hc, rfl⟩ hall'
      | outline ss =>
          unfold process_feature_elements at h
          cases hp : process_scenario_outline ss r with
          | none => rw [hp] at h; exact absurd h (by simp)
          | some r1 =>
              rw [hp] at h
              obtain ⟨hfeat, hcls, cs1, htc, hT, hall1⟩ := process_scenario_outline_spec hp
              obtain ⟨hf2, hc2, cs2, htc2, hT2, hall2⟩ := ih h
              rw [hcls] at hc2
              rw [hfeat] at hf2
              refine ⟨hf2, hc2, cs1 ++ cs2, ?_, ?_, ?_⟩
              · rw [htc2, htc]; simp
              · rw [hT2, hT, List.length_append]; omega
              · have hall2' : List.Forall₂
                    (fun sc c => ∃ res,
                      process_scenario_core r.classname r.feature sc = some res ∧
                        c = res.case) (rest.flatMap expandElement) cs2 :=
                  hall2.imp (fun a b hx => by rw [hcls, hfeat] at hx; exact hx)
                simp only [List.flatMap_cons, expandElement]
                exact forall2_append hall1 hall2'

theorem build_suite_eq_some {paths : List Str} {f : Feature}
    {report : FeatureReportData} {suite : Xml}
    (h : build_suite paths f = some (report, suite)) :
    process_feature_elements f.elements
      (FeatureReportData.mk0 f (make_feature_filename paths f.filename)) = some report := by
  simp only [build_suite] at h
  cases hp : process_feature_elements f.elements
      (FeatureReportData.mk0 f (make_feature_filename paths f.filename)) with
  | none => rw [hp] at h; exact absurd h (by simp)
  | some rep =>
      rw [hp] at h
      simp only [Option.some.injEq, Prod.mk.injEq] at h
      rw [h.1]

/-- C1: for every scenario with status `failed`, processing locates the first
step (in step order) with status `failed` and classifies the testcase: if that
step's exception is absent or an `AssertionError`, a `failure` child element is
attached and the failures counter is incremented; for any other exception type
an `error` child element is attached and the errors counter is incremented;
exactly one of the two counters is incremented, never both. -/
theorem failed_scenario_exclusive_classification (scenario : Scenario)
    (report r' : FeatureReportData)
    (hst : scenario.status = "failed".data)
    (h : process_scenario scenario report = some r') :
    ∃ step, select_step_with_status "failed".data scenario.steps = some step ∧
      ∃ case, r'.testcases = report.testcases ++ [case] ∧
        r'.counts_failed + r'.counts_errors =
          report.counts_failed + report.counts_errors + 1 ∧
        (if excIsAssertionOrNone step.exception then
          r'.counts_failed = report.counts_failed + 1 ∧
          r'.counts_errors = report.counts_errors ∧
          case.hasChildTag "failure".data = true ∧
          case.hasChildTag "error".data = false
        else
          r'.counts_errors = report.counts_errors + 1 ∧
          r'.counts_failed = report.counts_failed ∧
          case.hasChildTag "error".data = true ∧
          case.hasChildTag "failure".data = false) := by
  obtain ⟨res, hc, _, _, htc, hT, hE, hF, hS⟩ := process_scenario_eq_some h
  cases hsel : select_step_with_status "failed".data scenario.steps with
  | none =>
      exfalso
      have hnone : process_scenario_core report.classname report.feature scenario = none :=
        (process_scenario_core_eq_none _ _ _).mpr ⟨hst, hsel⟩
      rw [hnone] at hc
      exact absurd hc (by simp)
  | some step =>
      obtain ⟨res', hc', hde, hdf, hds, htag, hattrs, hch⟩ :=
        core_failed_spec report.classname report.feature scenario step hst hsel
      rw [hc] at hc'
      injection hc' with hres
      subst hres
      refine ⟨step, rfl, res.case, htc, ?_, ?_⟩
      · rw [hF, hE, hdf, hde]
        by_cases he : excIsAssertionOrNone step.exception = true <;> simp [he] <;> omega
      · by_cases he : excIsAssertionOrNone step.exception = true
        · rw [if_pos he]
          refine ⟨by rw [hF, hdf, if_pos he], by rw [hE, hde, if_pos he]; rfl, ?_, ?_⟩ <;>
            rcases hch with hch | hch <;>
              rw [Xml.hasChildTag_congr hch] <;>
              simp only [List.any_cons, List.any_nil, failureChild_tag,
                systemOutOf_tag, systemErrOf_tag, he] <;> decide
        · rw [if_neg he]
          rw [Bool.not_eq_true] at he
          refine ⟨by rw [hE, hde, he]; rfl, by rw [hF, hdf, he]; rfl, ?_, ?_⟩ <;>
            rcases hch with hch | hch <;>
              rw [Xml.hasChildTag_congr hch] <;>
              simp only [List.any_cons, List.any_nil, failureChild_tag,
                systemOutOf_tag, systemErrOf_tag, he] <;> decide

/-- C3: for every scenario with status `skipped` or `untested`, the skipped
counter is incremented; if the scenario contains a step with status
`undefined`, the failures counter is additionally incremented and the testcase
gets a `failure` child with type `undefined` and message `Undefined Step:
{step name}` of the first such step, with no CDATA body; otherwise the
testcase gets an empty `skipped` child element. -/
theorem skipped_scenario_reporting (scenario : Scenario)
    (report r' : FeatureReportData)
    (hst : scenario.status = "skipped".data ∨ scenario.status = "untested".data)
    (h : process_scenario scenario report = some r') :
    r'.counts_skipped = report.counts_skipped + 1 ∧
    r'.counts_errors = report.counts_errors ∧
    ∃ case, r'.testcases = report.testcases ++ [case] ∧
      (match select_step_with_status "undefined".data scenario.steps with
       | some step =>
           r'.counts_failed = report.counts_failed + 1 ∧
           ∃ child, child ∈ case.children ∧ child.tag = "failure".data ∧
             child.getAttr "type".data = some "undefined".data ∧
             child.getAttr "message".data =
               some ("Undefined Step: ".data ++ step.name) ∧
             child.text = [] ∧ child.children = []
       | none =>
           r'.counts_failed = report.counts_failed ∧
           ∃ child, child ∈ case.children ∧ child.tag = "skipped".data ∧
             child.attrs = [] ∧ child.text = [] ∧ child.children = []) := by
  obtain ⟨res, hc, _, _, htc, hT, hE, hF, hS⟩ := process_scenario_eq_some h
  cases hsel : select_step_with_status "undefined".data scenario.steps with
  | some step =>
      obtain ⟨res', hc', hde, hdf, hds, htag, hattrs, hch⟩ :=
        core_skipped_undef_spec report.classname report.feature scenario step hst hsel
      rw [hc] at hc'
      injection hc' with hres
      subst hres
      refine ⟨by rw [hS, hds], by rw [hE, hde]; rfl, res.case, htc,
        by rw [hF, hdf], undefinedChild step, ?_, rfl, ?_, ?_, rfl, rfl⟩
      · rcases hch with hch | hch <;> rw [hch] <;> simp
      · rw [Xml.getAttr_congr (undefinedChild_attrs step)]; rfl
      · rw [Xml.getAttr_congr (undefinedChild_attrs step)]; rfl
  | none =>
      obtain ⟨res', hc', hde, hdf, hds, htag, hattrs, hch⟩ :=
        core_skipped_nondef_spec report.classname report.feature scenario hst hsel
      rw [hc] at hc'
      injection hc' with hres
      subst hres
      refine ⟨by rw [hS, hds], by rw [hE, hde]; rfl, res.case, htc,
        by rw [hF, hdf]; rfl, Xml.elem "skipped".data [] [] [], ?_, rfl, rfl, rfl, rfl⟩
      rcases hch with hch | hch <;> rw [hch] <;> simp

/-- C8: for every scenario with status `passed`, the produced testcase element
has attributes `name` equal to the scenario name, `status` equal to `passed`,
and `time` equal to the scenario duration rounded to 6 decimal digits rendered
as a string (duration 0.123456 gives the string 0.123456), has no failure,
error, or skipped child, and no counter other than `tests` is changed. -/
theorem passed_scenario_testcase (scenario : Scenario)
    (report r' : FeatureReportData)
    (hst : scenario.status = "passed".data)
    (h : process_scenario scenario report = some r') :
    ∃ case, r'.testcases = report.testcases ++ [case] ∧
      case.getAttr "name".data = some scenario.name ∧
      case.getAttr "status".data = some "passed".data ∧
      case.getAttr "time".data = some (renderRound6 scenario.duration) ∧
      case.hasChildTag "failure".data = false ∧
      case.hasChildTag "error".data = false ∧
      case.hasChildTag "skipped".data = false ∧
      r'.counts_tests = report.counts_tests + 1 ∧
      r'.counts_errors = report.counts_errors ∧
      r'.counts_failed = report.counts_failed ∧
      r'.counts_skipped = report.counts_skipped ∧
      renderRound6 (mkRat 123456 1000000) = "0.123456".data := by
  obtain ⟨res, hc, _, _, htc, hT, hE, hF, hS⟩ := process_scenario_eq_some h
  have h1 : scenario.status ≠ "failed".data := by rw [hst]; decide
  have h2 : ¬(scenario.status = "skipped".data ∨
      scenario.status = "untested".data) := by rw [hst]; decide
  obtain ⟨res', hc', hde, hdf, hds, htag, hattrs, hch⟩ :=
    core_other_spec report.classname report.feature scenario h1 h2
  rw [hc] at hc'
  injection hc' with hres
  subst hres
  have hattrs' := hattrs.trans (baseTestcase_attrs report.classname report.feature scenario)
  refine ⟨res.case, htc, ?_, ?_, ?_, ?_, ?_, ?_, hT,
    by rw [hE, hde]; rfl, by rw [hF, hdf]; rfl, by rw [hS, hds]; rfl, by decide⟩
  · rw [Xml.getAttr_congr hattrs']; rfl
  · rw [Xml.getAttr_congr hattrs', hst]; rfl
  · rw [Xml.getAttr_congr hattrs']; rfl
  · rcases hch with hch | hch <;> rw [Xml.hasChildTag_congr hch] <;>
      simp only [List.any_cons, List.any_nil, systemOutOf_tag, systemErrOf_tag] <;> decide
  · rcases hch with hch | hch <;> rw [Xml.hasChildTag_congr hch] <;>
      simp only [List.any_cons, List.any_nil, systemOutOf_tag, systemErrOf_tag] <;> decide
  · rcases hch with hch | hch <;> rw [Xml.hasChildTag_congr hch] <;>
      simp only [List.any_cons, List.any_nil, systemOutOf_tag, systemErrOf_tag] <;> decide

/-- C9: for every scenario with status `failed` that contains no step with
status `failed`, processing aborts with an assertion failure (modelled as
`none`) instead of producing a testcase, and this is the only way processing a
scenario can abort; under the precondition that every failed scenario contains
a failed step the assertion branch is unreachable. -/
theorem failed_scenario_missing_step_aborts (scenario : Scenario)
    (report : FeatureReportData) :
    process_scenario scenario report = none ↔
      scenario.status = "failed".data ∧
      select_step_with_status "failed".data scenario.steps = none := by
  rw [process_scenario_eq_none, process_scenario_core_eq_none]

/-- C10: for every failed scenario whose first failed step has no exception
object, the scenario is classified as a failure (not an error), and the
sentinel used is the null value's own class name and string form: the failure
child's `type` attribute is `NoneType` and its `message` attribute is `None`. -/
theorem none_exception_is_failure (scenario : Scenario)
    (report r' : FeatureReportData) (step : Step)
    (hst : scenario.status = "failed".data)
    (hsel : select_step_with_status "failed".data scenario.steps = some step)
    (hexc : step.exception = none)
    (h : process_scenario scenario report = some r') :
    r'.counts_failed = report.counts_failed + 1 ∧
    r'.counts_errors = report.counts_errors ∧
    ∃ case child, r'.testcases = report.testcases ++ [case] ∧
      child ∈ case.children ∧ child.tag = "failure".data ∧
      child.getAttr "type".data = some "NoneType".data ∧
      child.getAttr "message".data = some "None".data := by
  obtain ⟨res, hc, _, _, htc, hT, hE, hF, hS⟩ := process_scenario_eq_some h
  obtain ⟨res', hc', hde, hdf, hds, htag, hattrs, hch⟩ :=
    core_failed_spec report.classname report.feature scenario step hst hsel
  rw [hc] at hc'
  injection hc' with hres
  subst hres
  have hassert : excIsAssertionOrNone step.exception = true := by rw [hexc]; rfl
  have hmsg : truncatedMessage step = "None".data := by
    unfold truncatedMessage; rw [hexc]; rfl
  refine ⟨by rw [hF, hdf, if_pos hassert], by rw [hE, hde, if_pos hassert]; rfl,
    res.case, failureChild step, htc, ?_, ?_, ?_, ?_⟩
  · rcases hch with hch | hch <;> rw [hch] <;> simp
  · rw [failureChild_tag, hassert]; rfl
  · rw [Xml.getAttr_congr (failureChild_attrs step), hexc]; rfl
  · rw [Xml.getAttr_congr (failureChild_attrs step), hmsg]; rfl

theorem process_scenario_inv {s : Scenario} {r r' : FeatureReportData}
    (h : process_scenario s r = some r') :
    r'.testcases.length = r.testcases.length + 1 ∧
    r'.counts_tests = r.counts_tests + 1 ∧
    r'.counts_errors + r'.counts_failed ≤ r.counts_errors + r.counts_failed + 1 ∧
    r'.counts_skipped ≤ r.counts_skipped + 1 := by
  obtain ⟨res, hc, _, _, htc, hT, hE, hF, hS⟩ := process_scenario_eq_some h
  obtain ⟨hd1, hd2⟩ := core_deltas_le hc
  refine ⟨?_, hT, ?_, ?_⟩
  · rw [htc, List.length_append]; rfl
  · omega
  · omega

theorem process_scenario_preserves_inv {s : Scenario} {r r' : FeatureReportData}
    (h : process_scenario s r = some r')
    (inv : r.counts_tests = r.testcases.length ∧
      r.counts_errors + r.counts_failed ≤ r.counts_tests ∧
      r.counts_skipped ≤ r.counts_tests) :
    r'.counts_tests = r'.testcases.length ∧
    r'.counts_errors + r'.counts_failed ≤ r'.counts_tests ∧
    r'.counts_skipped ≤ r'.counts_tests := by
  obtain ⟨h1, h2, h3, h4⟩ := process_scenario_inv h
  obtain ⟨i1, i2, i3⟩ := inv
  refine ⟨?_, ?_, ?_⟩ <;> omega

theorem process_scenario_outline_preserves_inv {ss : List Scenario}
    {r r' : FeatureReportData} (h : process_scenario_outline ss r = some r')
    (inv : r.counts_tests = r.testcases.length ∧
      r.counts_errors + r.counts_failed ≤ r.counts_tests ∧
      r.counts_skipped ≤ r.counts_tests) :
    r'.counts_tests = r'.testcases.length ∧
    r'.counts_errors + r'.counts_failed ≤ r'.counts_tests ∧
    r'.counts_skipped ≤ r'.counts_tests := by
  induction ss generalizing r with
  | nil =>
      unfold process_scenario_outline at h
      simp only [Option.some.injEq] at h
      subst h
      exact inv
  | cons sc rest ih =>
      unfold process_scenario_outline at h
      cases hp : process_scenario sc r with
      | none => rw [hp] at h; exact absurd h (by simp)
      | some r1 =>
          rw [hp] at h
          exact ih h (process_scenario_preserves_inv hp inv)

theorem process_feature_elements_preserves_inv {es : List FeatureElement}
    {r r' : FeatureReportData} (h : process_feature_elements es r = some r')
    (inv : r.counts_tests = r.testcases.length ∧
      r.counts_errors + r.counts_failed ≤ r.counts_tests ∧
      r.counts_skipped ≤ r.counts_tests) :
    r'.counts_tests = r'.testcases.length ∧
    r'.counts_errors + r'.counts_failed ≤ r'.counts_tests ∧
    r'.counts_skipped ≤ r'.counts_tests := by
  induction es generalizing r with
  | nil =>
      unfold process_feature_elements at h
      simp only [Option.some.injEq] at h
      subst h
      exact inv
  | cons e rest ih =>
      cases e with
      | scenario sc =>
          unfold process_feature_elements at h
          cases hp : process_scenario sc r with
          | none => rw [hp] at h; exact absurd h (by simp)
          | some r1 =>
              rw [hp] at h
              exact ih h (process_scenario_preserves_inv hp inv)
      | outline ss =>
          unfold process_feature_elements at h
          cases hp : process_scenario_outline ss r with
          | none => rw [hp] at h; exact absurd h (by simp)
          | some r1 =>
              rw [hp] at h
              exact ih h (process_scenario_outline_preserves_inv hp inv)

/-- C2: after processing any feature, the report counters satisfy: tests
equals the length of the testcases list, errors + failures is at most tests,
and skipped is at most tests; moreover every processed scenario appends
exactly one testcase element and increments tests by exactly one. -/
theorem feature_report_counter_invariants (paths : List Str) (f : Feature)
    (report : FeatureReportData) (suite : Xml)
    (h : build_suite paths f = some (report, suite)) :
    report.counts_tests = report.testcases.length ∧
    report.counts_errors + report.counts_failed ≤ report.counts_tests ∧
    report.counts_skipped ≤ report.counts_tests ∧
    ∀ (s : Scenario) (r r' : FeatureReportData), process_scenario s r = some r' →
      r'.testcases.length = r.testcases.length + 1 ∧
      r'.counts_tests = r.counts_tests + 1 := by
  have hb := build_suite_eq_some h
  have hinv := process_feature_elements_preserves_inv hb ⟨rfl, le_refl 0, le_refl 0⟩
  exact ⟨hinv.1, hinv.2.1, hinv.2.2, fun s r r' hp =>
    ⟨(process_scenario_inv hp).1, (process_scenario_inv hp).2.1⟩⟩

/-- C5: for every feature, the derived classname strips the prefix of the
first configured search-root path matching the feature's file path (or takes
the file's base name when no root matches), removes the file extension, and
replaces path separators with dots; in particular, for feature path
`features/a/b.feature` with configured search root `features`, the derived
classname is `a.b`. -/
theorem classname_derivation (paths : List Str) (fname : Str) :
    make_feature_filename paths fname =
      replaceChar '/' '.' (replaceChar '\\' '/' (stripExt
        (match paths.find? (fun p => p.isPrefixOf fname) with
         | some p => fname.drop (p.length + 1)
         | none => basename fname))) ∧
    make_feature_filename ["features".data] "features/a/b.feature".data = "a.b".data := by
  constructor
  · unfold make_feature_filename
    rw [findMatchingRoot_eq_find?]
  · decide

/-- C4: for every failed scenario, the failure/error child's `message`
attribute is the string form of the failed step's exception, unchanged when
its length is at most 80 characters and otherwise exactly its first 80
characters followed by an ellipsis marker; the child's CDATA body consists of
the step name, the step location and the step's untruncated recorded error
message (for text without ANSI escape sequences, which stripping leaves
unchanged). -/
theorem failure_message_truncation (scenario : Scenario)
    (report r' : FeatureReportData) (step : Step)
    (hst : scenario.status = "failed".data)
    (hsel : select_step_with_status "failed".data scenario.steps = some step)
    (hesc : escChar ∉ failedStepText step)
    (h : process_scenario scenario report = some r') :
    ∃ case child, r'.testcases = report.testcases ++ [case] ∧
      child ∈ case.children ∧
      (child.tag = "failure".data ∨ child.tag = "error".data) ∧
      child.getAttr "message".data =
        some (if (excStr step.exception).length ≤ 80 then excStr step.exception
          else (excStr step.exception).take 80 ++ "...".data) ∧
      ∃ body, child.children = [body] ∧ body.tag = cdataTag ∧
        body.text = "Step: ".data ++ step.name ++ ".\nLocation: ".data ++
          step.location ++ "\n".data ++ step.error_message ∧
        step.name <:+: body.text ∧ step.location <:+: body.text ∧
        step.error_message <:+: body.text := by
  obtain ⟨res, hc, _, _, htc, hT, hE, hF, hS⟩ := process_scenario_eq_some h
  obtain ⟨res', hc', hde, hdf, hds, htag, hattrs, hch⟩ :=
    core_failed_spec report.classname report.feature scenario step hst hsel
  rw [hc] at hc'
  injection hc' with hres
  subst hres
  have hbody : strip_escapes (failedStepText step) = failedStepText step :=
    strip_escapes_of_no_esc hesc
  have hbody' : (CDATA (failedStepText step)).text =
      "Step: ".data ++ step.name ++ ".\nLocation: ".data ++
        step.location ++ "\n".data ++ step.error_message := by
    show strip_escapes (failedStepText step) = _
    rw [hbody]
    unfold failedStepText
    simp [List.append_assoc]
  refine ⟨res.case, failureChild step, htc, ?_, ?_, ?_,
    CDATA (failedStepText step), failureChild_children step, rfl, hbody', ?_, ?_, ?_⟩
  · rcases hch with hch | hch <;> rw [hch] <;> simp
  · rw [failureChild_tag]
    by_cases he : excIsAssertionOrNone step.exception = true
    · left; rw [he]; rfl
    · right; rw [Bool.not_eq_true] at he; rw [he]; rfl
  · have hfind : (failureChild step).getAttr "message".data =
        some (truncatedMessage step) := by
      rw [Xml.getAttr_congr (failureChild_attrs step)]; rfl
    have htrunc : truncatedMessage step =
        (if (excStr step.exception).length ≤ 80 then excStr step.exception
          else (excStr step.exception).take 80 ++ "...".data) := by
      unfold truncatedMessage
      by_cases hlen : (excStr step.exception).length ≤ 80
      · rw [if_neg (by omega), if_pos hlen]
      · rw [if_pos (by omega), if_neg hlen]
    rw [hfind, htrunc]
  · rw [hbody']
    exact ⟨"Step: ".data,
      ".\nLocation: ".data ++ step.location ++ "\n".data ++ step.error_message,
      by simp [List.append_assoc]⟩
  · rw [hbody']
    exact ⟨"Step: ".data ++ step.name ++ ".\nLocation: ".data,
      "\n".data ++ step.error_message, by simp [List.append_assoc]⟩
  · rw [hbody']
    exact ⟨"Step: ".data ++ step.name ++ ".\nLocation: ".data ++
      step.location ++ "\n".data, [], by simp [List.append_assoc]⟩

theorem serialize_cdata (t : Str) :
    serialize_xml (Xml.elem cdataTag [] t []) =
      "\n<![CDATA[".data ++ t ++ "]]>\n".data := by
  rw [serialize_xml, if_pos rfl]
  rfl

/-- C6: for every designated CDATA node, the serializer emits its text
verbatim wrapped in a CDATA block without entity-escaping, so XML-special
characters placed in captured stdout appear unchanged inside the emitted
CDATA block of the `system-out` element; all non-CDATA nodes are emitted with
standard attribute-escaped, text-escaped XML serialization. -/
theorem cdata_verbatim_serialization (scenario : Scenario)
    (report r' : FeatureReportData)
    (hstd : scenario.stdout ≠ [])
    (hd : escChar ∉ describe_scenario scenario)
    (hs : escChar ∉ scenario.stdout)
    (h : process_scenario scenario report = some r') :
    (∀ t : Str, serialize_xml (Xml.elem cdataTag [] t []) =
      "\n<![CDATA[".data ++ t ++ "]]>\n".data) ∧
    (∀ (tag : Str) (attrs : List (Str × Str)) (text : Str) (children : List Xml),
      tag ≠ cdataTag →
      serialize_xml (Xml.elem tag attrs text children) =
        "<".data ++ tag ++ serializeAttrs attrs ++ ">".data ++ escape_text text ++
          serialize_list children ++ "</".data ++ tag ++ ">".data) ∧
    ∃ case, r'.testcases = report.testcases ++ [case] ∧
      ("\nCaptured stdout:\n".data ++ scenario.stdout ++ "\n".data) <:+:
        serialize_xml case := by
  obtain ⟨res, hc, _, _, htc, hT, hE, hF, hS⟩ := process_scenario_eq_some h
  obtain ⟨hmem, htag⟩ := core_systemout hc
  refine ⟨serialize_cdata, ?_, res.case, htc, ?_⟩
  · intro tag attrs text children hne
    rw [serialize_xml, if_neg hne]
  · have htext : systemOutText scenario =
        describe_scenario scenario ++ "\nCaptured stdout:\n".data ++
          scenario.stdout ++ "\n".data := by
      unfold systemOutText
      rw [if_pos hstd]
    have hnoesc : escChar ∉ systemOutText scenario := by
      rw [htext]
      intro hm
      rcases List.mem_append.mp hm with hm | hm
      · rcases List.mem_append.mp hm with hm | hm
        · rcases List.mem_append.mp hm with hm | hm
          · exact hd hm
          · exact absurd hm (by decide)
        · exact hs hm
      · exact absurd hm (by decide)
    have hcd : serialize_xml (CDATA (systemOutText scenario)) =
        "\n<![CDATA[".data ++ systemOutText scenario ++ "]]>\n".data := by
      unfold CDATA
      rw [serialize_cdata, strip_escapes_of_no_esc hnoesc]
    have h1 : serialize_xml (CDATA (systemOutText scenario)) <:+:
        serialize_xml (systemOutOf scenario) := by
      apply serialize_infix_of_child
      · rw [systemOutOf_children]; exact List.mem_singleton.mpr rfl
      · rw [systemOutOf_tag]; decide
    have h2 : serialize_xml (systemOutOf scenario) <:+: serialize_xml res.case := by
      apply serialize_infix_of_child hmem
      rw [htag]; decide
    have h0 : ("\nCaptured stdout:\n".data ++ scenario.stdout ++ "\n".data) <:+:
        serialize_xml (CDATA (systemOutText scenario)) := by
      rw [hcd, htext]
      exact ⟨"\n<![CDATA[".data ++ describe_scenario scenario, "]]>\n".data,
        by simp [List.append_assoc]⟩
    exact h0.trans (h1.trans h2)

/-- C7: for every feature, the report's testcases list contains exactly one
testcase element per scenario after outline expansion, appended in encounter
order: the i-th testcase is exactly the element produced from the i-th
expanded scenario, so report order equals original execution order, the
number of testcases is the number of expanded scenarios, and tests equals
that number. -/
theorem testcases_preserve_execution_order (paths : List Str) (f : Feature)
    (report : FeatureReportData) (suite : Xml)
    (h : build_suite paths f = some (report, suite)) :
    report.counts_tests = (expandedScenarios f).length ∧
    report.testcases.length = (expandedScenarios f).length ∧
    List.Forall₂
      (fun sc c => ∃ res,
        process_scenario_core report.classname report.feature sc = some res ∧
          c = res.case)
      (expandedScenarios f) report.testcases := by
  have hb := build_suite_eq_some h
  obtain ⟨hfeat, hcls, cs, htc, hT, hall⟩ := process_feature_elements_spec hb
  simp only [FeatureReportData.mk0] at htc hT
  rw [List.nil_append] at htc
  rw [Nat.zero_add] at hT
  have hall' : List.Forall₂
      (fun sc c => ∃ res,
        process_scenario_core report.classname report.feature sc = some res ∧
          c = res.case)
      (f.elements.flatMap expandElement) cs :=
    hall.imp (fun a b hx => by rw [hcls, hfeat]; exact hx)
  have hlen := List.Forall₂.length_eq hall'
  refine ⟨?_, ?_, ?_⟩
  · rw [hT]
    unfold expandedScenarios
    omega
  · rw [htc]
    unfold expandedScenarios
    omega
  · rw [htc]
    unfold expandedScenarios
    exact hall'

/-- The integer computation of `round6` agrees with rounding half up at six
decimal digits. -/
theorem round6_eq (q : ℚ) : round6 q = ⌊(q * 1000000 + 1 / 2 : ℚ)⌋ := by
  have hD : ((2 * q.den : ℕ) : ℚ) ≠ 0 := by
    have h2 : (2 * q.den : ℕ) ≠ 0 := by positivity
    exact_mod_cast h2
  have hx : (q * 1000000 + 1 / 2 : ℚ) =
      (((q.num * 2000000 + (q.den : ℤ)) : ℤ) : ℚ) / ((2 * q.den : ℕ) : ℚ) := by
    rw [eq_div_iff hD]
    push_cast
    linear_combination (2000000 : ℚ) * Rat.mul_den_eq_num q
  rw [round6, hx, Rat.floor_intCast_div_natCast,
    ← Int.fdiv_eq_ediv _ (by positivity)]
  push_cast
  ring_nf

/-- Witness for C1 at a concrete failed scenario whose failing step raised an
assertion-style exception. -/
theorem failed_scenario_exclusive_classification_app :
    ∃ step, select_step_with_status "failed".data scnFailedAssert.steps = some step ∧
      ∃ case, reportAfterFailedAssert.testcases = sampleReport.testcases ++ [case] ∧
        reportAfterFailedAssert.counts_failed + reportAfterFailedAssert.counts_errors =
          sampleReport.counts_failed + sampleReport.counts_errors + 1 ∧
        (if excIsAssertionOrNone step.exception then
          reportAfterFailedAssert.counts_failed = sampleReport.counts_failed + 1 ∧
          reportAfterFailedAssert.counts_errors = sampleReport.counts_errors ∧
          case.hasChildTag "failure".data = true ∧
          case.hasChildTag "error".data = false
        else
          reportAfterFailedAssert.counts_errors = sampleReport.counts_errors + 1 ∧
          reportAfterFailedAssert.counts_failed = sampleReport.counts_failed ∧
          case.hasChildTag "error".data = true ∧
          case.hasChildTag "failure".data = false) :=
  failed_scenario_exclusive_classification scnFailedAssert sampleReport
    reportAfterFailedAssert rfl rfl

/-- Witness for C2 at the concrete sample feature. -/
theorem feature_report_counter_invariants_app :
    sampleBuild.1.counts_tests = sampleBuild.1.testcases.length ∧
    sampleBuild.1.counts_errors + sampleBuild.1.counts_failed ≤
      sampleBuild.1.counts_tests ∧
    sampleBuild.1.counts_skipped ≤ sampleBuild.1.counts_tests ∧
    ∀ (s : Scenario) (r r' : FeatureReportData), process_scenario s r = some r' →
      r'.testcases.length = r.testcases.length + 1 ∧
      r'.counts_tests = r.counts_tests + 1 :=
  feature_report_counter_invariants ["features".data] sampleFeature
    sampleBuild.1 sampleBuild.2 rfl

/-- Witness for C3 at a concrete skipped scenario with an undefined step. -/
theorem skipped_scenario_reporting_app :
    reportAfterSkipped.counts_skipped = sampleReport.counts_skipped + 1 ∧
    reportAfterSkipped.counts_errors = sampleReport.counts_errors ∧
    ∃ case, reportAfterSkipped.testcases = sampleReport.testcases ++ [case] ∧
      (match select_step_with_status "undefined".data scnSkippedUndefined.steps with
       | some step =>
           reportAfterSkipped.counts_failed = sampleReport.counts_failed + 1 ∧
           ∃ child, child ∈ case.children ∧ child.tag = "failure".data ∧
             child.getAttr "type".data = some "undefined".data ∧
             child.getAttr "message".data =
               some ("Undefined Step: ".data ++ step.name) ∧
             child.text = [] ∧ child.children = []
       | none =>
           reportAfterSkipped.counts_failed = sampleReport.counts_failed ∧
           ∃ child, child ∈ case.children ∧ child.tag = "skipped".data ∧
             child.attrs = [] ∧ child.text = [] ∧ child.children = []) :=
  skipped_scenario_reporting scnSkippedUndefined sampleReport reportAfterSkipped
    (Or.inl rfl) rfl

/-- Witness for C4 at a concrete failed scenario whose exception message is
100 characters long. -/
theorem failure_message_truncation_app :
    ∃ case child,
      reportAfterFailedRuntime.testcases = sampleReport.testcases ++ [case] ∧
      child ∈ case.children ∧
      (child.tag = "failure".data ∨ child.tag = "error".data) ∧
      child.getAttr "message".data =
        some (if (excStr stepFailedRuntime.exception).length ≤ 80 then
            excStr stepFailedRuntime.exception
          else (excStr stepFailedRuntime.exception).take 80 ++ "...".data) ∧
      ∃ body, child.children = [body] ∧ body.tag = cdataTag ∧
        body.text = "Step: ".data ++ stepFailedRuntime.name ++ ".\nLocation: ".data ++
          stepFailedRuntime.location ++ "\n".data ++ stepFailedRuntime.error_message ∧
        stepFailedRuntime.name <:+: body.text ∧
        stepFailedRuntime.location <:+: body.text ∧
        stepFailedRuntime.error_message <:+: body.text :=
  failure_message_truncation scnFailedRuntime sampleReport reportAfterFailedRuntime
    stepFailedRuntime rfl rfl (by decide) rfl

/-- Witness for C6 at a concrete scenario whose captured stdout contains the
XML-special characters. -/
theorem cdata_verbatim_serialization_app :
    (∀ t : Str, serialize_xml (Xml.elem cdataTag [] t []) =
      "\n<![CDATA[".data ++ t ++ "]]>\n".data) ∧
    (∀ (tag : Str) (attrs : List (Str × Str)) (text : Str) (children : List Xml),
      tag ≠ cdataTag →
      serialize_xml (Xml.elem tag attrs text children) =
        "<".data ++ tag ++ serializeAttrs attrs ++ ">".data ++ escape_text text ++
          serialize_list children ++ "</".data ++ tag ++ ">".data) ∧
    ∃ case, reportAfterFailedAssert.testcases = sampleReport.testcases ++ [case] ∧
      ("\nCaptured stdout:\n".data ++ scnFailedAssert.stdout ++ "\n".data) <:+:
        serialize_xml case :=
  cdata_verbatim_serialization scnFailedAssert sampleReport reportAfterFailedAssert
    (by decide) (by decide) (by decide) rfl

/-- Witness for C7 at the concrete sample feature (one passed scenario, an
outline expanding to two scenarios, and one more failed scenario). -/
theorem testcases_preserve_execution_order_app :
    sampleBuild.1.counts_tests = (expandedScenarios sampleFeature).length ∧
    sampleBuild.1.testcases.length = (expandedScenarios sampleFeature).length ∧
    List.Forall₂
      (fun sc c => ∃ res,
        process_scenario_core sampleBuild.1.classname sampleBuild.1.feature sc =
          some res ∧ c = res.case)
      (expandedScenarios sampleFeature) sampleBuild.1.testcases :=
  testcases_preserve_execution_order ["features".data] sampleFeature
    sampleBuild.1 sampleBuild.2 rfl

/-- Witness for C8 at a concrete passed scenario with duration 0.123456. -/
theorem passed_scenario_testcase_app :
    ∃ case, reportAfterPassed.testcases = sampleReport.testcases ++ [case] ∧
      case.getAttr "name".data = some scnPassed.name ∧
      case.getAttr "status".data = some "passed".data ∧
      case.getAttr "time".data = some (renderRound6 scnPassed.duration) ∧
      case.hasChildTag "failure".data = false ∧
      case.hasChildTag "error".data = false ∧
      case.hasChildTag "skipped".data = false ∧
      reportAfterPassed.counts_tests = sampleReport.counts_tests + 1 ∧
      reportAfterPassed.counts_errors = sampleReport.counts_errors ∧
      reportAfterPassed.counts_failed = sampleReport.counts_failed ∧
      reportAfterPassed.counts_skipped = sampleReport.counts_skipped ∧
      renderRound6 (mkRat 123456 1000000) = "0.123456".data :=
  passed_scenario_testcase scnPassed sampleReport reportAfterPassed rfl rfl

/-- Witness for C10 at a concrete failed scenario whose failing step carries
no exception object. -/
theorem none_exception_is_failure_app :
    reportAfterFailedNone.counts_failed = sampleReport.counts_failed + 1 ∧
    reportAfterFailedNone.counts_errors = sampleReport.counts_errors ∧
    ∃ case child,
      reportAfterFailedNone.testcases = sampleReport.testcases ++ [case] ∧
      child ∈ case.children ∧ child.tag = "failure".data ∧
      child.getAttr "type".data = some "NoneType".data ∧
      child.getAttr "message".data = some "None".data :=
  none_exception_is_failure scnFailedNone sampleReport reportAfterFailedNone
    stepFailedNone rfl rfl rfl rfl

end Behave
